import Mathlib

/-!
Shallow embedding of `pymemtrace/src/cpy/cMemLeak.c`.

The C module defines three CPython extension types — `CMallocObject`,
`PyRawMallocObject` and `PyMallocObject` — each holding a `size_t size` and a
`void *buffer`, plus the module functions `py_incref`, `py_decref` and
`py_bytes_of_size`.  Allocation and release go through three allocator
families: C's `malloc`/`free`, CPython's raw domain
`PyMem_RawMalloc`/`PyMem_RawFree`, and CPython's mem (pymalloc) domain
`PyMem_Malloc`/`PyMem_Free`.  Machine integers are modelled as `Nat`/`Int`
with explicit reduction modulo `2 ^ w`, where `w` is the bit width of
`size_t`/`Py_ssize_t`.  Calls into the host runtime (argument parsing, the
allocators, `PyBytes_FromStringAndSize`, member descriptors, reference
counting) are modelled from their documented CPython contracts.
-/

namespace CMemLeak

/-- The three allocator families used by cMemLeak.c: C's `malloc`/`free`,
CPython's raw domain `PyMem_RawMalloc`/`PyMem_RawFree`, and CPython's mem
(pymalloc) domain `PyMem_Malloc`/`PyMem_Free`.  Releasing a block through a
family other than the one that allocated it is undefined behaviour in the
host runtime. -/
inductive AllocFamily
  | cMalloc
  | pyMemRaw
  | pyMem
deriving DecidableEq, Repr

/-- Pointers are modelled as naturals; `0` stands for `NULL`. -/
abbrev Ptr := Nat

/-- One allocator-level action, recorded for allocator-level accounting. -/
inductive AllocEvent
  | allocOk (fam : AllocFamily) (size : Nat) (p : Ptr)
  | allocFail (fam : AllocFamily) (size : Nat)
  | freeNull (fam : AllocFamily)
  | freeOk (fam : AllocFamily) (p : Ptr)
  | freeMismatch (requested actual : AllocFamily) (p : Ptr)
  | freeInvalid (fam : AllocFamily) (p : Ptr)
deriving DecidableEq, Repr

/-- The size requested by an allocation event, when the event is an
allocation request (successful or failed). -/
def AllocEvent.reqSize : AllocEvent → Option Nat
  | .allocOk _ s _ => some s
  | .allocFail _ s => some s
  | _ => none

/-- Allocator-level state: the live blocks tagged with the family that
allocated them, a fresh-pointer counter, and the trace of allocator events. -/
structure AllocState where
  live : List (Ptr × AllocFamily)
  nextPtr : Ptr
  events : List AllocEvent
deriving DecidableEq, Repr

/-- The empty allocator state. -/
def AllocState.init : AllocState := { live := [], nextPtr := 0, events := [] }

/-- Whether a given family can satisfy a request of a given size
(abstracts the host's memory pressure). -/
abbrev AllocOracle := AllocFamily → Nat → Bool

/-- Modelled from the C/CPython allocator contract: `malloc`,
`PyMem_RawMalloc` and `PyMem_Malloc` return a fresh non-null block on
success and `NULL` on failure. -/
def allocate (oracle : AllocOracle) (fam : AllocFamily) (size : Nat)
    (st : AllocState) : Option Ptr × AllocState :=
  if oracle fam size then
    let p := st.nextPtr + 1
    (some p, { live := (p, fam) :: st.live, nextPtr := p,
               events := st.events ++ [AllocEvent.allocOk fam size p] })
  else
    (none, { st with events := st.events ++ [AllocEvent.allocFail fam size] })

/-- Modelled from the C/CPython allocator contract: `free`, `PyMem_RawFree`
and `PyMem_Free` accept `NULL` as a no-op; releasing a live block through
the family that allocated it removes it; releasing it through a different
family, or releasing a non-live pointer, is an invalid release (undefined
behaviour), recorded as an event. -/
def release (fam : AllocFamily) (p : Ptr) (st : AllocState) : AllocState :=
  if p = 0 then
    { st with events := st.events ++ [AllocEvent.freeNull fam] }
  else
    match st.live.find? (fun q => q.1 == p) with
    | some (_, fam2) =>
      if fam2 = fam then
        { st with live := st.live.filter (fun q => q.1 != p),
                  events := st.events ++ [AllocEvent.freeOk fam p] }
      else
        { st with events := st.events ++ [AllocEvent.freeMismatch fam fam2 p] }
    | none => { st with events := st.events ++ [AllocEvent.freeInvalid fam p] }

/-- The `size` argument as received from the host call: a Python integer,
or a malformed (non-integer) object, or missing altogether. -/
inductive SizeArg
  | missing
  | malformed
  | int (n : Int)
deriving DecidableEq, Repr

/-- Failure kinds surfaced by the module's code paths: argument-parse
failure (`PyArg_ParseTupleAndKeywords` returned false), allocator failure
(the allocator returned `NULL`), the host's negative-size `SystemError`
from `PyBytes_FromStringAndSize`, and the host's read-only member
`AttributeError`. -/
inductive ErrKind
  | invalidArgument
  | outOfMemory
  | systemError
  | attributeError
deriving DecidableEq, Repr

/-- Modelled from the CPython API contract: parsing format `"n"` succeeds
exactly on an integer argument representable as `Py_ssize_t`, i.e. in
`[-2 ^ (w - 1), 2 ^ (w - 1))`; a missing, non-integer or out-of-range
argument fails the parse (`TypeError`/`OverflowError`). -/
def parse_n (w : Nat) : SizeArg → Option Int
  | .int n =>
      if -((2 : Int) ^ (w - 1)) ≤ n ∧ n < (2 : Int) ^ (w - 1) then some n
      else none
  | _ => none

/-- Conversion of a (possibly negative) `Py_ssize_t` value into the
unsigned `size_t` field: reduction modulo `2 ^ w`, per C's conversion to an
unsigned type. -/
def toSizeT (w : Nat) (n : Int) : Nat := (n % ((2 : Int) ^ w)).toNat

/-- The size actually passed to the allocator by the three `_init`
functions: the stored `size_t`, bumped to 1 when it is 0
(cMemLeak.c lines 42-44, 118-120, 194-196). -/
def effectiveSize (w : Nat) (n : Int) : Nat :=
  if toSizeT w n = 0 then 1 else toSizeT w n

/-- Reading a `size_t` value back as `Py_ssize_t` (C conversion of an
unsigned value to the signed type of the same width): values at or above
`2 ^ (w - 1)` become negative. -/
def ssizeOfSizeT (w : Nat) (s : Nat) : Int :=
  if s < 2 ^ (w - 1) then (s : Int) else (s : Int) - (2 : Int) ^ w

/-- The instance data shared by all three extension types: `CMallocObject`
(cMemLeak.c lines 12-16), `PyRawMallocObject` (lines 88-92) and
`PyMallocObject` (lines 164-168) each hold `size_t size; void *buffer`. -/
structure MemObject where
  size : Nat
  buffer : Ptr
deriving DecidableEq, Repr

abbrev CMallocObject := MemObject
abbrev PyRawMallocObject := MemObject
abbrev PyMallocObject := MemObject

/-- `CMallocObject_new` (lines 24-33): a fresh object has `size = 0` and
`buffer = NULL`. -/
def CMallocObject_new : CMallocObject := { size := 0, buffer := 0 }

/-- `PyRawMallocObject_new` (lines 100-109): `size = 0`, `buffer = NULL`. -/
def PyRawMallocObject_new : PyRawMallocObject := { size := 0, buffer := 0 }

/-- `PyMallocObject_new` (lines 176-185): `size = 0`, `buffer = NULL`. -/
def PyMallocObject_new : PyMallocObject := { size := 0, buffer := 0 }

/-- Result of an `_init` call: the C return code (`0` success, `-1`
failure), which failing code path was taken (if any), the object after the
call, and the allocator state after the call. -/
structure InitResult where
  ret : Int
  failure : Option ErrKind
  self : MemObject
  st : AllocState
deriving DecidableEq, Repr

/-- Common body of the three `_init` functions, which are textually
identical except for the allocator called: parse the single keyword
argument `"size"` with format `"n"` into the `size_t` field (return `-1`
on parse failure, before any allocation); bump a zero size to 1; allocate
through `fam`; return `-1` if the allocator returned `NULL`
(without setting a host exception), else `0`. -/
def handle_init (fam : AllocFamily) (w : Nat) (oracle : AllocOracle)
    (self : MemObject) (arg : SizeArg) (st : AllocState) : InitResult :=
  match parse_n w arg with
  | none => { ret := -1, failure := some ErrKind.invalidArgument, self := self, st := st }
  | some n =>
    let sz := effectiveSize w n
    match allocate oracle fam sz st with
    | (some p, st2) =>
        { ret := 0, failure := none, self := { size := sz, buffer := p }, st := st2 }
    | (none, st2) =>
        { ret := -1, failure := some ErrKind.outOfMemory,
          self := { size := sz, buffer := 0 }, st := st2 }

/-- `CMallocObject_init` (lines 35-50): allocates with `malloc`. -/
def CMallocObject_init : Nat → AllocOracle → CMallocObject → SizeArg → AllocState → InitResult :=
  handle_init AllocFamily.cMalloc

/-- `PyRawMallocObject_init` (lines 111-126): despite the struct comment
(line 91, "Buffer created by PyMem_RawMalloc()") and the type docstring
(lines 141-145, "reserves a block of memory with Pythons raw memory
allocator"), the source at line 121 calls `PyMem_Malloc`, i.e. the mem
(pymalloc) family, not the raw family. -/
def PyRawMallocObject_init : Nat → AllocOracle → PyRawMallocObject → SizeArg → AllocState → InitResult :=
  handle_init AllocFamily.pyMem

/-- `PyMallocObject_init` (lines 187-202): allocates with `PyMem_Malloc`. -/
def PyMallocObject_init : Nat → AllocOracle → PyMallocObject → SizeArg → AllocState → InitResult :=
  handle_init AllocFamily.pyMem

/-- `CMallocObject_dealloc` (lines 18-22): releases `self->buffer` with
`free`. -/
def CMallocObject_dealloc (self : CMallocObject) (st : AllocState) : AllocState :=
  release AllocFamily.cMalloc self.buffer st

/-- `PyRawMallocObject_dealloc` (lines 94-98): releases `self->buffer` with
`PyMem_RawFree`, i.e. the raw family. -/
def PyRawMallocObject_dealloc (self : PyRawMallocObject) (st : AllocState) : AllocState :=
  release AllocFamily.pyMemRaw self.buffer st

/-- `PyMallocObject_dealloc` (lines 170-174): releases `self->buffer` with
`PyMem_Free`. -/
def PyMallocObject_dealloc (self : PyMallocObject) (st : AllocState) : AllocState :=
  release AllocFamily.pyMem self.buffer st

/-- A `PyMemberDef` entry as far as the claims need it: the exposed
attribute name and the flags word. -/
structure MemberDef where
  name : String
  flags : Nat
deriving DecidableEq, Repr

/-- The `READONLY` flag value from CPython's `structmember.h`. -/
def READONLY : Nat := 1

/-- `CMallocObject_members` (lines 52-55): one entry, `"size"`, flags `0`. -/
def CMallocObject_members : List MemberDef := [{ name := "size", flags := 0 }]

/-- `PyRawMallocObject_members` (lines 128-131): one entry, `"size"`,
flags `0`. -/
def PyRawMallocObject_members : List MemberDef := [{ name := "size", flags := 0 }]

/-- `PyMallocObject_members` (lines 204-207): one entry, `"size"`,
flags `0`. -/
def PyMallocObject_members : List MemberDef := [{ name := "size", flags := 0 }]

/-- Modelled from the CPython API contract: reading a member descriptor for
the `size` field returns the field's current value. -/
def PyMember_GetOne (m : MemberDef) (obj : MemObject) : Nat := obj.size

/-- Modelled from the CPython API contract: `PyMember_SetOne` refuses the
assignment (with `AttributeError`) exactly when the descriptor carries the
`READONLY` flag; otherwise it stores the new value into the field. -/
def PyMember_SetOne (m : MemberDef) (obj : MemObject) (v : Nat) :
    Except ErrKind MemObject :=
  if m.flags &&& READONLY ≠ 0 then Except.error ErrKind.attributeError
  else Except.ok { obj with size := v }

/-- A host object as far as the reference-counting claims need it: the
`ob_refcnt` field (the `w`-bit pattern of a `Py_ssize_t`, so a natural
below `2 ^ w`) and all of its remaining state, opaque. -/
structure PyObj where
  ob_refcnt : Nat
  payload : Nat
deriving DecidableEq, Repr

/-- Modelled from the CPython API contract: `Py_INCREF` adds one to
`ob_refcnt` (in `w`-bit arithmetic) and touches nothing else. -/
def Py_INCREF (w : Nat) (x : PyObj) : PyObj :=
  { x with ob_refcnt := (x.ob_refcnt + 1) % 2 ^ w }

/-- Modelled from the CPython API contract: `Py_DECREF` subtracts one from
`ob_refcnt`; on the `w`-bit pattern this is addition of `2 ^ w - 1` modulo
`2 ^ w`.  (Reaching zero triggers reclamation in the host; the counter
arithmetic itself is as written here.) -/
def Py_DECREF (w : Nat) (x : PyObj) : PyObj :=
  { x with ob_refcnt := (x.ob_refcnt + (2 ^ w - 1)) % 2 ^ w }

/-- The value returned by the two module functions (`Py_RETURN_NONE`). -/
inductive PyRet
  | pyNone
deriving DecidableEq, Repr

/-- `py_incref` (lines 243-247): `Py_INCREF(pobj); Py_RETURN_NONE;`.
Declared `METH_O`: it accepts any single object, with no type check, and
is total. -/
def py_incref (w : Nat) (pobj : PyObj) : PyObj × PyRet :=
  (Py_INCREF w pobj, PyRet.pyNone)

/-- `py_decref` (lines 253-257): `Py_DECREF(pobj); Py_RETURN_NONE;`. -/
def py_decref (w : Nat) (pobj : PyObj) : PyObj × PyRet :=
  (Py_DECREF w pobj, PyRet.pyNone)

/-- A Python bytes object as far as the claims need it: its length.
Contents are uninitialised and carry no guarantees, so they are not
modelled. -/
structure PyBytesObject where
  len : Nat
deriving DecidableEq, Repr

/-- Modelled from the CPython API contract: `PyBytes_FromStringAndSize(NULL,
size)` raises `SystemError` on a negative size, returns the empty bytes
object for size 0 without any fallible allocation, and otherwise returns an
uninitialised bytes object of exactly `size` bytes, or `MemoryError` if the
allocation fails (decided by the oracle). -/
def PyBytes_FromStringAndSize (oracle : Nat → Bool) (size : Int) :
    Except ErrKind PyBytesObject :=
  if size < 0 then Except.error ErrKind.systemError
  else if size = 0 then Except.ok { len := 0 }
  else if oracle size.toNat then Except.ok { len := size.toNat }
  else Except.error ErrKind.outOfMemory

/-- `py_bytes_of_size` (lines 263-272): parse the `"size"` keyword argument
with format `"n"` into a local `size_t` (return `NULL` on parse failure,
before any allocation), then return
`PyBytes_FromStringAndSize(NULL, size)` — the `size_t` value converting
back to the `Py_ssize_t` parameter. -/
def py_bytes_of_size (w : Nat) (oracle : Nat → Bool) (arg : SizeArg) :
    Except ErrKind PyBytesObject :=
  match parse_n w arg with
  | none => Except.error ErrKind.invalidArgument
  | some n => PyBytes_FromStringAndSize oracle (ssizeOfSizeT w (toSizeT w n))

/-- The `size_t` value that `py_bytes_of_size` passes on to
`PyBytes_FromStringAndSize` (the local variable `size` at line 266), or
`none` when the parse fails and no call is made. -/
def py_bytes_passedSizeT (w : Nat) (arg : SizeArg) : Option Nat :=
  (parse_n w arg).map (toSizeT w)

/-- An oracle under which every allocation succeeds. -/
def oracleAll : AllocOracle := fun _ _ => true

/-- An oracle under which every allocation fails. -/
def oracleNone : AllocOracle := fun _ _ => false

/-- A bytes-allocation oracle under which every allocation succeeds. -/
def bytesOracleAll : Nat → Bool := fun _ => true

/-- Packaging of "size 0 acts as size 1" for one constructor: the call with
size 0 is indistinguishable from the call with size 1, the stored `size`
field reads 1, and exactly one allocator request is made, of one byte. -/
def ZeroActsAsOne (initf : AllocOracle → MemObject → SizeArg → AllocState → InitResult)
    (oracle : AllocOracle) (self : MemObject) (st : AllocState) : Prop :=
  initf oracle self (SizeArg.int 0) st = initf oracle self (SizeArg.int 1) st ∧
  (initf oracle self (SizeArg.int 0) st).self.size = 1 ∧
  ((initf oracle self (SizeArg.int 0) st).st.events.drop st.events.length).map
    AllocEvent.reqSize = [some 1]

/-- Packaging of construction failure by allocator exhaustion: nonzero
return code, the allocator-failure code path, a `NULL` buffer in the
half-initialised object, and no new live block. -/
def InitFailsOutOfMemory (r : InitResult) (st : AllocState) : Prop :=
  r.ret = -1 ∧ r.failure = some ErrKind.outOfMemory ∧ r.self.buffer = 0 ∧
  r.st.live = st.live

/-- Packaging of "the parse did not reject the argument and exactly one
allocator request of size `sz` was issued". -/
def AllocRequested (r : InitResult) (st : AllocState) (sz : Nat) : Prop :=
  r.failure ≠ some ErrKind.invalidArgument ∧
  (r.st.events.drop st.events.length).map AllocEvent.reqSize = [some sz]

/-- The constructed-then-destroyed PyRawMalloc handle used to exhibit the
mismatched allocator families. -/
def rawInitRun : InitResult :=
  PyRawMallocObject_init 64 oracleAll PyRawMallocObject_new (SizeArg.int 1) AllocState.init

lemma two_pow_pos_int (w : Nat) : (0 : Int) < 2 ^ w := pow_pos (by norm_num) w

lemma two_pow_half_le (w : Nat) : (2 : Int) ^ (w - 1) ≤ 2 ^ w :=
  pow_le_pow_right₀ (by norm_num) (Nat.sub_le w 1)

lemma toSizeT_nonneg_eq (w : Nat) (n : Int) (h0 : 0 ≤ n)
    (h1 : n < (2 : Int) ^ w) : (toSizeT w n : Int) = n := by
  unfold toSizeT
  rw [Int.emod_eq_of_lt h0 h1, Int.toNat_of_nonneg h0]

lemma toSizeT_neg_eq (w : Nat) (n : Int) (hn : n < 0)
    (hr : -((2 : Int) ^ w) ≤ n) : (toSizeT w n : Int) = 2 ^ w + n := by
  unfold toSizeT
  have hmod : n % (2 : Int) ^ w = 2 ^ w + n := by
    have h1 : n % (2 : Int) ^ w = (n + 2 ^ w) % 2 ^ w := by
      rw [show n + (2 : Int) ^ w = n + 2 ^ w * 1 by ring, Int.add_mul_emod_self_left]
    rw [h1, Int.emod_eq_of_lt (by omega) (by omega)]
    ring
  rw [hmod]
  have : (0 : Int) ≤ 2 ^ w + n := by omega
  omega

lemma parse_n_of_range (w : Nat) (n : Int) (h1 : -((2 : Int) ^ (w - 1)) ≤ n)
    (h2 : n < (2 : Int) ^ (w - 1)) : parse_n w (SizeArg.int n) = some n := by
  simp [parse_n, h1, h2]

lemma handle_init_zero_one (fam : AllocFamily) (w : Nat) (oracle : AllocOracle)
    (self : MemObject) (st : AllocState) (hw : 2 ≤ w) :
    ZeroActsAsOne (handle_init fam w) oracle self st := by
  have hpw : (0 : Int) < 2 ^ (w - 1) := two_pow_pos_int (w - 1)
  have h0 : parse_n w (SizeArg.int 0) = some 0 :=
    parse_n_of_range w 0 (by linarith) hpw
  have h1lt : (1 : Int) < 2 ^ (w - 1) := one_lt_pow₀ (by norm_num) (by omega)
  have h1 : parse_n w (SizeArg.int 1) = some 1 :=
    parse_n_of_range w 1 (by linarith) h1lt
  have e0 : effectiveSize w 0 = 1 := by
    simp [effectiveSize, toSizeT]
  have ht1 : toSizeT w 1 = 1 := by
    unfold toSizeT
    rw [Int.emod_eq_of_lt (by norm_num) (lt_of_lt_of_le h1lt (two_pow_half_le w))]
    rfl
  have e1 : effectiveSize w 1 = 1 := by
    simp [effectiveSize, ht1]
  refine ⟨?_, ?_, ?_⟩
  · simp [handle_init, h0, h1, e0, e1]
  · by_cases ho : oracle fam 1
    · simp [handle_init, h0, e0, allocate, ho]
    · simp [handle_init, h0, e0, allocate, ho]
  · by_cases ho : oracle fam 1
    · simp [handle_init, h0, e0, allocate, ho, List.drop_left, AllocEvent.reqSize]
    · simp [handle_init, h0, e0, allocate, ho, List.drop_left, AllocEvent.reqSize]

/-- C3: for all three handle variants, constructing with size 0 behaves
identically to constructing with size 1: the two calls produce equal
results, one byte is requested from the allocator, and the stored `size`
attribute reads 1. -/
theorem size_zero_behaves_as_size_one (w : Nat) (oracle : AllocOracle)
    (self : MemObject) (st : AllocState) (hw : 2 ≤ w) :
    ZeroActsAsOne (CMallocObject_init w) oracle self st ∧
    ZeroActsAsOne (PyRawMallocObject_init w) oracle self st ∧
    ZeroActsAsOne (PyMallocObject_init w) oracle self st :=
  ⟨handle_init_zero_one AllocFamily.cMalloc w oracle self st hw,
   handle_init_zero_one AllocFamily.pyMem w oracle self st hw,
   handle_init_zero_one AllocFamily.pyMem w oracle self st hw⟩

theorem size_zero_behaves_as_size_one_witness :
    2 ≤ 64 ∧
    (ZeroActsAsOne (CMallocObject_init 64) oracleAll CMallocObject_new AllocState.init ∧
     ZeroActsAsOne (PyRawMallocObject_init 64) oracleAll CMallocObject_new AllocState.init ∧
     ZeroActsAsOne (PyMallocObject_init 64) oracleAll CMallocObject_new AllocState.init) :=
  ⟨by norm_num,
   size_zero_behaves_as_size_one 64 oracleAll CMallocObject_new AllocState.init (by norm_num)⟩

/-- C2: for all three handle variants, when the allocator the variant's
`_init` actually calls cannot satisfy the (zero-bumped) request, the
construction returns `-1` through the allocator-failure code path, the
object's buffer is `NULL` (no live handle), and no live block is added. -/
theorem allocator_failure_fails_construction (w : Nat) (oracle : AllocOracle)
    (self : MemObject) (st : AllocState) (arg : SizeArg) (n : Int)
    (hp : parse_n w arg = some n)
    (hc : oracle AllocFamily.cMalloc (effectiveSize w n) = false)
    (hm : oracle AllocFamily.pyMem (effectiveSize w n) = false) :
    InitFailsOutOfMemory (CMallocObject_init w oracle self arg st) st ∧
    InitFailsOutOfMemory (PyRawMallocObject_init w oracle self arg st) st ∧
    InitFailsOutOfMemory (PyMallocObject_init w oracle self arg st) st := by
  refine ⟨?_, ?_, ?_⟩ <;>
    simp [CMallocObject_init, PyRawMallocObject_init, PyMallocObject_init,
          handle_init, hp, allocate, hc, hm, InitFailsOutOfMemory]

theorem allocator_failure_fails_construction_witness :
    parse_n 64 (SizeArg.int 7) = some 7 ∧
    oracleNone AllocFamily.cMalloc (effectiveSize 64 7) = false ∧
    oracleNone AllocFamily.pyMem (effectiveSize 64 7) = false ∧
    (InitFailsOutOfMemory (CMallocObject_init 64 oracleNone CMallocObject_new (SizeArg.int 7) AllocState.init) AllocState.init ∧
     InitFailsOutOfMemory (PyRawMallocObject_init 64 oracleNone CMallocObject_new (SizeArg.int 7) AllocState.init) AllocState.init ∧
     InitFailsOutOfMemory (PyMallocObject_init 64 oracleNone CMallocObject_new (SizeArg.int 7) AllocState.init) AllocState.init) :=
  ⟨by decide, rfl, rfl,
   allocator_failure_fails_construction 64 oracleNone CMallocObject_new AllocState.init
     (SizeArg.int 7) 7 (by decide) rfl rfl⟩

/-- C8: a missing or malformed `size` argument makes each of the three
`_init` functions and `py_bytes_of_size` fail through the argument-parse
code path, with the object and the allocator state left exactly as they
were and no allocation attempted. -/
theorem bad_size_argument_rejected (w : Nat) (oracle : AllocOracle)
    (boracle : Nat → Bool) (self : MemObject) (st : AllocState) (arg : SizeArg)
    (h : arg = SizeArg.missing ∨ arg = SizeArg.malformed) :
    CMallocObject_init w oracle self arg st =
      { ret := -1, failure := some ErrKind.invalidArgument, self := self, st := st } ∧
    PyRawMallocObject_init w oracle self arg st =
      { ret := -1, failure := some ErrKind.invalidArgument, self := self, st := st } ∧
    PyMallocObject_init w oracle self arg st =
      { ret := -1, failure := some ErrKind.invalidArgument, self := self, st := st } ∧
    py_bytes_of_size w boracle arg = Except.error ErrKind.invalidArgument := by
  rcases h with h | h <;> subst h <;> exact ⟨rfl, rfl, rfl, rfl⟩

theorem bad_size_argument_rejected_witness :
    (SizeArg.missing = SizeArg.missing ∨ SizeArg.missing = SizeArg.malformed) ∧
    (CMallocObject_init 64 oracleAll CMallocObject_new SizeArg.missing AllocState.init =
      { ret := -1, failure := some ErrKind.invalidArgument, self := CMallocObject_new,
        st := AllocState.init } ∧
     PyRawMallocObject_init 64 oracleAll CMallocObject_new SizeArg.missing AllocState.init =
      { ret := -1, failure := some ErrKind.invalidArgument, self := CMallocObject_new,
        st := AllocState.init } ∧
     PyMallocObject_init 64 oracleAll CMallocObject_new SizeArg.missing AllocState.init =
      { ret := -1, failure := some ErrKind.invalidArgument, self := CMallocObject_new,
        st := AllocState.init } ∧
     py_bytes_of_size 64 bytesOracleAll SizeArg.missing = Except.error ErrKind.invalidArgument) :=
  ⟨Or.inl rfl,
   bad_size_argument_rejected 64 oracleAll bytesOracleAll CMallocObject_new AllocState.init
     SizeArg.missing (Or.inl rfl)⟩

/-- C5: a `py_incref` immediately followed by a `py_decref` on the same
object restores the object exactly, counter included (net-zero pair). -/
theorem incref_then_decref_restores_object (w : Nat) (x : PyObj)
    (h : x.ob_refcnt < 2 ^ w) :
    (py_decref w (py_incref w x).1).1 = x := by
  cases x with
  | mk r p =>
    simp only [py_incref, py_decref, Py_INCREF, Py_DECREF]
    have hm : 1 ≤ 2 ^ w := Nat.one_le_pow w 2 (by norm_num)
    congr 1
    rw [Nat.mod_add_mod]
    have he : r + 1 + (2 ^ w - 1) = r + 2 ^ w := by omega
    rw [he, Nat.add_mod_right, Nat.mod_eq_of_lt h]

theorem incref_then_decref_restores_object_witness :
    (PyObj.mk 3 9).ob_refcnt < 2 ^ 64 ∧
    (py_decref 64 (py_incref 64 (PyObj.mk 3 9)).1).1 = PyObj.mk 3 9 :=
  ⟨by decide, incref_then_decref_restores_object 64 (PyObj.mk 3 9) (by decide)⟩

/-- C7: `py_incref` adds exactly one to the object's reference count,
changes nothing else in the object, and returns `None`; it is total over
all objects (no type validation). -/
theorem py_incref_adds_exactly_one (w : Nat) (x : PyObj)
    (h : x.ob_refcnt + 1 < 2 ^ w) :
    py_incref w x = ({ x with ob_refcnt := x.ob_refcnt + 1 }, PyRet.pyNone) := by
  simp only [py_incref, Py_INCREF, Nat.mod_eq_of_lt h]

theorem py_incref_adds_exactly_one_witness :
    (PyObj.mk 3 9).ob_refcnt + 1 < 2 ^ 64 ∧
    py_incref 64 (PyObj.mk 3 9) = (PyObj.mk 4 9, PyRet.pyNone) :=
  ⟨by decide, py_incref_adds_exactly_one 64 (PyObj.mk 3 9) (by decide)⟩

/-- C10: deallocating a handle whose buffer is still `NULL` (as every
freshly created object's is, per the three `_new` functions) passes `NULL`
to the variant's release function, which accepts it as a no-op: the only
recorded event is a null free, the live-block list is untouched, and no
mismatched or invalid release occurs. -/
theorem dealloc_null_buffer_is_noop (self : MemObject) (st : AllocState)
    (h : self.buffer = 0) :
    CMallocObject_new.buffer = 0 ∧ PyRawMallocObject_new.buffer = 0 ∧
    PyMallocObject_new.buffer = 0 ∧
    CMallocObject_dealloc self st =
      { st with events := st.events ++ [AllocEvent.freeNull AllocFamily.cMalloc] } ∧
    PyRawMallocObject_dealloc self st =
      { st with events := st.events ++ [AllocEvent.freeNull AllocFamily.pyMemRaw] } ∧
    PyMallocObject_dealloc self st =
      { st with events := st.events ++ [AllocEvent.freeNull AllocFamily.pyMem] } := by
  refine ⟨rfl, rfl, rfl, ?_, ?_, ?_⟩ <;>
    simp [CMallocObject_dealloc, PyRawMallocObject_dealloc, PyMallocObject_dealloc,
          release, h]

theorem dealloc_null_buffer_is_noop_witness :
    CMallocObject_new.buffer = 0 ∧
    (CMallocObject_new.buffer = 0 ∧ PyRawMallocObject_new.buffer = 0 ∧
     PyMallocObject_new.buffer = 0 ∧
     CMallocObject_dealloc CMallocObject_new AllocState.init =
       { AllocState.init with
         events := AllocState.init.events ++ [AllocEvent.freeNull AllocFamily.cMalloc] } ∧
     PyRawMallocObject_dealloc CMallocObject_new AllocState.init =
       { AllocState.init with
         events := AllocState.init.events ++ [AllocEvent.freeNull AllocFamily.pyMemRaw] } ∧
     PyMallocObject_dealloc CMallocObject_new AllocState.init =
       { AllocState.init with
         events := AllocState.init.events ++ [AllocEvent.freeNull AllocFamily.pyMem] }) :=
  ⟨rfl, dealloc_null_buffer_is_noop CMallocObject_new AllocState.init rfl⟩

/-- C1: evaluated at the failing input (a PyRawMalloc handle of size 1,
with every allocation succeeding), construction succeeds and records a
live block allocated by the mem (pymalloc) family — `PyMem_Malloc`, line
121 — while destruction releases through the raw family — `PyMem_RawFree`,
line 96 — so the release is a mismatched-family release, not a matched
allocate/release pair. -/
theorem pyRawMalloc_mismatched_release_families :
    rawInitRun.ret = 0 ∧
    rawInitRun.st.live = [(1, AllocFamily.pyMem)] ∧
    (PyRawMallocObject_dealloc rawInitRun.self rawInitRun.st).events =
      [AllocEvent.allocOk AllocFamily.pyMem 1 1,
       AllocEvent.freeMismatch AllocFamily.pyMemRaw AllocFamily.pyMem 1] := by
  decide

/-- C6 counterexample: the `size` member descriptor of every variant has
flags 0 — the `READONLY` bit is absent — so assigning to `size` on a
constructed handle succeeds and changes the value, contradicting the claim
that any attempt to assign fails. -/
theorem size_member_assignment_succeeds :
    CMallocObject_members = [{ name := "size", flags := 0 }] ∧
    PyRawMallocObject_members = [{ name := "size", flags := 0 }] ∧
    PyMallocObject_members = [{ name := "size", flags := 0 }] ∧
    PyMember_SetOne { name := "size", flags := 0 } { size := 1, buffer := 1 } 42 =
      Except.ok { size := 42, buffer := 1 } := by
  exact ⟨rfl, rfl, rfl, rfl⟩

/-- C6 amended: for every member descriptor any of the three variants
exposes, the attribute is readable (it reports the stored `size` field) but
not read-only: the descriptor's flags word has no `READONLY` bit, so
assignment succeeds and updates the stored value. -/
theorem size_member_readable_and_writable (m : MemberDef) (obj : MemObject) (v : Nat)
    (hm : m ∈ CMallocObject_members ∨ m ∈ PyRawMallocObject_members ∨
          m ∈ PyMallocObject_members) :
    PyMember_GetOne m obj = obj.size ∧
    m.flags &&& READONLY = 0 ∧
    PyMember_SetOne m obj v = Except.ok { obj with size := v } := by
  have hf : m.flags = 0 := by
    rcases hm with h | h | h <;>
    · simp only [CMallocObject_members, PyRawMallocObject_members, PyMallocObject_members,
                 List.mem_singleton] at h
      rw [h]
  exact ⟨rfl, by simp [hf], by simp [PyMember_SetOne, hf, READONLY]⟩

theorem size_member_readable_and_writable_witness :
    (({ name := "size", flags := 0 } : MemberDef) ∈ CMallocObject_members ∨
     ({ name := "size", flags := 0 } : MemberDef) ∈ PyRawMallocObject_members ∨
     ({ name := "size", flags := 0 } : MemberDef) ∈ PyMallocObject_members) ∧
    (PyMember_GetOne { name := "size", flags := 0 } { size := 7, buffer := 1 } =
       MemObject.size { size := 7, buffer := 1 } ∧
     ({ name := "size", flags := 0 } : MemberDef).flags &&& READONLY = 0 ∧
     PyMember_SetOne { name := "size", flags := 0 } { size := 7, buffer := 1 } 42 =
       Except.ok { size := 42, buffer := 1 }) :=
  ⟨Or.inl (List.mem_singleton.mpr rfl),
   size_member_readable_and_writable { name := "size", flags := 0 }
     { size := 7, buffer := 1 } 42 (Or.inl (List.mem_singleton.mpr rfl))⟩

/-- C4: for every representable non-negative size whose allocation the
host can satisfy, `py_bytes_of_size` returns a bytes object of exactly
that length; size 0 succeeds without consulting the allocator at all. -/
theorem py_bytes_of_size_exact_length (w : Nat) (oracle : Nat → Bool) (n : Int)
    (h0 : 0 ≤ n) (h1 : n < (2 : Int) ^ (w - 1))
    (ho : n ≠ 0 → oracle n.toNat = true) :
    py_bytes_of_size w oracle (SizeArg.int n) = Except.ok { len := n.toNat } := by
  have hp : parse_n w (SizeArg.int n) = some n :=
    parse_n_of_range w n (by linarith [two_pow_pos_int (w - 1)]) h1
  have hw2 : n < (2 : Int) ^ w := lt_of_lt_of_le h1 (two_pow_half_le w)
  have hts : (toSizeT w n : Int) = n := toSizeT_nonneg_eq w n h0 hw2
  have hcast : ((2 ^ (w - 1) : Nat) : Int) = (2 : Int) ^ (w - 1) := by push_cast; ring
  have hlt : toSizeT w n < 2 ^ (w - 1) := by omega
  have hss : ssizeOfSizeT w (toSizeT w n) = n := by
    simp only [ssizeOfSizeT, if_pos hlt]
    omega
  by_cases hz : n = 0
  · subst hz
    simp [py_bytes_of_size, hp, hss, PyBytes_FromStringAndSize]
  · have hor := ho hz
    have hnn : ¬ n < 0 := by omega
    have hzz : ¬ n = 0 := hz
    simp [py_bytes_of_size, hp, hss, PyBytes_FromStringAndSize, hnn, hzz, hor]

theorem py_bytes_of_size_exact_length_witness :
    (0 : Int) ≤ 5 ∧ (5 : Int) < (2 : Int) ^ (64 - 1) ∧
    ((5 : Int) ≠ 0 → bytesOracleAll (5 : Int).toNat = true) ∧
    py_bytes_of_size 64 bytesOracleAll (SizeArg.int 5) = Except.ok { len := (5 : Int).toNat } :=
  ⟨by norm_num, by norm_num, fun _ => rfl,
   py_bytes_of_size_exact_length 64 bytesOracleAll 5 (by norm_num) (by norm_num)
     (fun _ => rfl)⟩

/-- C9: a negative, `Py_ssize_t`-representable size is not rejected by the
`"n"` parse; it is stored into the unsigned `size_t` field reinterpreted
modulo `2 ^ w` (becoming `2 ^ w + n`), the three constructors then issue
exactly one allocation request of that huge size, and `py_bytes_of_size`
passes that same stored `size_t` on to `PyBytes_FromStringAndSize` (whose
signed parameter reads it as negative again, so the host raises
`SystemError` rather than an argument-parse error). -/
theorem negative_size_wraps_to_unsigned (w : Nat) (oracle : AllocOracle)
    (boracle : Nat → Bool) (self : MemObject) (st : AllocState) (n : Int)
    (hw : 1 ≤ w) (hn : n < 0) (hr : -((2 : Int) ^ (w - 1)) ≤ n) :
    parse_n w (SizeArg.int n) = some n ∧
    (toSizeT w n : Int) = 2 ^ w + n ∧
    AllocRequested (CMallocObject_init w oracle self (SizeArg.int n) st) st (toSizeT w n) ∧
    AllocRequested (PyRawMallocObject_init w oracle self (SizeArg.int n) st) st (toSizeT w n) ∧
    AllocRequested (PyMallocObject_init w oracle self (SizeArg.int n) st) st (toSizeT w n) ∧
    py_bytes_passedSizeT w (SizeArg.int n) = some (toSizeT w n) ∧
    py_bytes_of_size w boracle (SizeArg.int n) = Except.error ErrKind.systemError := by
  have hhalf : (2 : Int) ^ (w - 1) ≤ 2 ^ w := two_pow_half_le w
  have hp : parse_n w (SizeArg.int n) = some n :=
    parse_n_of_range w n hr (lt_trans hn (two_pow_pos_int (w - 1)))
  have hts : (toSizeT w n : Int) = 2 ^ w + n :=
    toSizeT_neg_eq w n hn (by linarith)
  have hdouble : (2 : Int) ^ w = 2 ^ (w - 1) * 2 := by
    rw [← pow_succ]
    congr 1
    omega
  have hbig : (2 : Int) ^ (w - 1) ≤ 2 ^ w + n := by linarith
  have hcast : ((2 ^ (w - 1) : Nat) : Int) = (2 : Int) ^ (w - 1) := by push_cast; ring
  have hpos : toSizeT w n ≠ 0 := by
    have := two_pow_pos_int (w - 1)
    omega
  have heff : effectiveSize w n = toSizeT w n := by
    simp [effectiveSize, hpos]
  have halloc : ∀ fam : AllocFamily,
      AllocRequested (handle_init fam w oracle self (SizeArg.int n) st) st (toSizeT w n) := by
    intro fam
    by_cases horc : oracle fam (toSizeT w n)
    · simp [AllocRequested, handle_init, hp, heff, allocate, horc, List.drop_left,
            AllocEvent.reqSize]
    · simp [AllocRequested, handle_init, hp, heff, allocate, horc, List.drop_left,
            AllocEvent.reqSize]
  have hge : ¬ toSizeT w n < 2 ^ (w - 1) := by omega
  have hss : ssizeOfSizeT w (toSizeT w n) = n := by
    simp only [ssizeOfSizeT, if_neg hge]
    omega
  refine ⟨hp, hts, halloc AllocFamily.cMalloc, halloc AllocFamily.pyMem,
          halloc AllocFamily.pyMem, ?_, ?_⟩
  · simp [py_bytes_passedSizeT, hp]
  · simp [py_bytes_of_size, hp, hss, PyBytes_FromStringAndSize, hn]

theorem negative_size_wraps_to_unsigned_witness :
    1 ≤ 8 ∧ (-3 : Int) < 0 ∧ -((2 : Int) ^ (8 - 1)) ≤ -3 ∧
    (parse_n 8 (SizeArg.int (-3)) = some (-3) ∧
     (toSizeT 8 (-3) : Int) = 2 ^ 8 + (-3) ∧
     AllocRequested (CMallocObject_init 8 oracleAll CMallocObject_new (SizeArg.int (-3)) AllocState.init)
       AllocState.init (toSizeT 8 (-3)) ∧
     AllocRequested (PyRawMallocObject_init 8 oracleAll CMallocObject_new (SizeArg.int (-3)) AllocState.init)
       AllocState.init (toSizeT 8 (-3)) ∧
     AllocRequested (PyMallocObject_init 8 oracleAll CMallocObject_new (SizeArg.int (-3)) AllocState.init)
       AllocState.init (toSizeT 8 (-3)) ∧
     py_bytes_passedSizeT 8 (SizeArg.int (-3)) = some (toSizeT 8 (-3)) ∧
     py_bytes_of_size 8 bytesOracleAll (SizeArg.int (-3)) = Except.error ErrKind.systemError) :=
  ⟨by norm_num, by norm_num, by norm_num,
   negative_size_wraps_to_unsigned 8 oracleAll bytesOracleAll CMallocObject_new
     AllocState.init (-3) (by norm_num) (by norm_num) (by norm_num)⟩

end CMemLeak
